import Mathlib

/-!
Verification of the RoboChef agent loop (src/robochef/agent.py).

The embedding models `RoboChef.solve_task` and `RoboChef.take_action` as
pure state-passing functions.  External collaborators are modelled as an
environment consumed one record per `take_action` attempt:

  - the LangChain chain (`chain.invoke`) returns a response with a raw
    `content` string and a `model_name` metadata entry, or raises;
  - `json.loads` on the response content yields a JSON value or raises
    a `JSONDecodeError` (a subclass of `ValueError` in Python);
  - `RoboChefTool.find_action` or `RoboChefTool.use` (the file
    src/robochef/tool.py is not part of the verified sources; the spec
    treats the action registry as an external collaborator, so lookups
    and invocations are environment functions);
  - `task.refresh()` pulls a fresh status from the remote task store.

Python exceptions are modelled with `Except`; mutation that happened
before an exception was raised is kept in the returned state, exactly as
the in-place mutation in the Python code survives a raised exception.
The `tenacity` retry decorator `@retry(stop=stop_after_attempt(5), ...)`
is modelled by `retryTakeAction`: up to five total attempts, and when the
fifth attempt fails a `RetryError` wrapping the last exception escapes to
`solve_task` (the decorator is used without `reraise=True`).
-/

namespace RoboChef

/-- Python/JSON values as produced by `json.loads`.  Numbers are modelled
as integers (no claim depends on floats). -/
inductive JValue where
  | null : JValue
  | bool : Bool → JValue
  | num : Int → JValue
  | str : String → JValue
  | arr : List JValue → JValue
  | obj : List (String × JValue) → JValue

/-- Python truthiness (`if not selection`, `if action_response`). -/
def JValue.isFalsy : JValue → Bool
  | JValue.null => true
  | JValue.bool b => !b
  | JValue.num n => n == 0
  | JValue.str s => s.isEmpty
  | JValue.arr xs => xs.isEmpty
  | JValue.obj fs => fs.isEmpty

/-- Python `==` between a value and a string literal
(`selection[...] == "result"`): true only for an equal string. -/
def JValue.isStrEq (v : JValue) (s : String) : Bool :=
  match v with
  | JValue.str t => t == s
  | _ => false

/-- First binding of a key in a Python dict modelled as an assoc list. -/
def lookupField : List (String × JValue) → String → Option JValue
  | [], _ => none
  | (k, v) :: rest, key => if k == key then some v else lookupField rest key

mutual

/-- Python `repr`, as used by `str()` on the elements of containers.
Quotes and braces are written with their escape codes. -/
def JValue.pyRepr : JValue → String
  | JValue.null => "None"
  | JValue.bool true => "True"
  | JValue.bool false => "False"
  | JValue.num n => toString n
  | JValue.str s => "\x27" ++ s ++ "\x27"
  | JValue.arr xs => "[" ++ pyReprList xs ++ "]"
  | JValue.obj fs => "\x7b" ++ pyReprFields fs ++ "\x7d"

/-- Comma-separated reprs of the elements of a list. -/
def pyReprList : List JValue → String
  | [] => ""
  | [v] => JValue.pyRepr v
  | v :: rest => JValue.pyRepr v ++ ", " ++ pyReprList rest

/-- Comma-separated `key: value` reprs of the entries of a dict. -/
def pyReprFields : List (String × JValue) → String
  | [] => ""
  | [(k, v)] => "\x27" ++ k ++ "\x27: " ++ JValue.pyRepr v
  | (k, v) :: rest =>
      "\x27" ++ k ++ "\x27: " ++ JValue.pyRepr v ++ ", " ++ pyReprFields rest

end

/-- Python `str()`, used by f-string interpolation: a string is inserted
bare, every other value through its repr. -/
def JValue.pyStr : JValue → String
  | JValue.str s => s
  | v => JValue.pyRepr v

/-- The Python exceptions the agent code can raise. -/
inductive PyErr where
  | valueError : String → PyErr
  | systemError : String → PyErr
  | keyError : String → PyErr
  | typeError : String → PyErr
  | jsonDecodeError : String → PyErr
  | apiError : String → PyErr
deriving DecidableEq

/-- Python exception class name (shows up in the repr of the future a
`tenacity.RetryError` carries). -/
def PyErr.className : PyErr → String
  | PyErr.valueError _ => "ValueError"
  | PyErr.systemError _ => "SystemError"
  | PyErr.keyError _ => "KeyError"
  | PyErr.typeError _ => "TypeError"
  | PyErr.jsonDecodeError _ => "JSONDecodeError"
  | PyErr.apiError _ => "APIError"

/-- Python `str(e)`.  `str` of a `KeyError` is the repr of the key. -/
def PyErr.toStr : PyErr → String
  | PyErr.valueError m => m
  | PyErr.systemError m => m
  | PyErr.keyError k => "\x27" ++ k ++ "\x27"
  | PyErr.typeError m => m
  | PyErr.jsonDecodeError m => m
  | PyErr.apiError m => m

/-- `str` of the `tenacity.RetryError` raised after the attempts are
exhausted: `RetryError[<attempt future>]`.  The repr of the future names
the class of the exception it holds; its memory address, which also
appears in the Python repr, is not representable and is elided. -/
def retryErrStr (e : PyErr) : String :=
  "RetryError[<Future state=finished raised " ++ e.className ++ ">]"

/-- `python-dict-style` subscript `v[k]`: `KeyError` on a missing key,
`TypeError` when the value is not subscriptable by a string. -/
def JValue.getItem : JValue → String → Except PyErr JValue
  | JValue.obj fs, k =>
      match lookupField fs k with
      | some v => Except.ok v
      | none => Except.error (PyErr.keyError k)
  | JValue.str _, _ =>
      Except.error (PyErr.typeError "string indices must be integers")
  | JValue.arr _, _ =>
      Except.error (PyErr.typeError "list indices must be integers or slices, not str")
  | _, _ =>
      Except.error (PyErr.typeError "object is not subscriptable")

/-- `taskara.TaskStatus` values the agent code manipulates. -/
inductive TaskStatus where
  | running : TaskStatus
  | canceling : TaskStatus
  | canceled : TaskStatus
  | finished : TaskStatus
  | failed : TaskStatus
deriving DecidableEq

/-- The slice of a `taskara.Task` the agent reads and writes. -/
structure Task where
  description : String
  status : TaskStatus
  error : Option String
  remote : Bool
deriving DecidableEq

/-- A LangChain conversation message (the `messages` thread holds only
`HumanMessage` and `AIMessage` values; the system prompt lives in the
prompt template, outside the list). -/
inductive Message where
  | human : String → Message
  | ai : String → Message
deriving DecidableEq

/-- One entry of `task.record_action(...)`: the fields the call passes
that the claims inspect.  `EnvState()` is a fresh empty state each time
and carries no information, so it is not modelled. -/
structure ActionRecord where
  action : JValue
  tool : String
  result : JValue
  agentId : String
  model : String

/-- The observable state a run mutates: the task, the shared message
thread, the posted user-visible messages (all posted with role
`assistant`), the `task.save()` calls (status and error at save time),
and the appended action records. -/
structure AgentState where
  task : Task
  messages : List Message
  posted : List String
  saves : List (TaskStatus × Option String)
  records : List ActionRecord

/-- The chain response: `response.content` and
`response.response_metadata` entry `model_name`. -/
structure ChainResponse where
  content : String
  modelName : String
deriving DecidableEq

/-- External behaviour consumed by one `take_action` attempt. -/
structure AttemptEnv where
  /-- status after `task.refresh()`, read only when `task.remote`. -/
  refreshedStatus : TaskStatus
  /-- outcome of `chain.invoke(...)`. -/
  chainResult : Except PyErr ChainResponse
  /-- outcome of `json.loads` on a content string. -/
  jsonLoads : String → Except String JValue
  /-- `robocheftool.find_action(name)` (None when unregistered). -/
  findAction : JValue → Option String
  /-- `robocheftool.use(action, **parameters)` result or error text. -/
  useAction : String → JValue → Except String JValue

/-- `task.post_message("assistant", text)`. -/
def postMessage (st : AgentState) (text : String) : AgentState :=
  { st with posted := st.posted ++ [text] }

/-- `task.save()`: persists the current status and error. -/
def saveTask (st : AgentState) : AgentState :=
  { st with saves := st.saves ++ [(st.task.status, st.task.error)] }

/-- Appending to the shared `messages` list (in-place mutation in the
Python code). -/
def appendMessage (st : AgentState) (m : Message) : AgentState :=
  { st with messages := st.messages ++ [m] }

/-- `task.refresh()` at the top of `take_action`, only for remote tasks. -/
def refreshedState (env : AttemptEnv) (st : AgentState) : AgentState :=
  if st.task.remote then
    { st with task := { st.task with status := env.refreshedStatus } }
  else st

/-- The user message of a step:
f-string `Your current task is \x7bcurrent_state\x7d.`. -/
def humanPrompt (cs : JValue) : String :=
  "Your current task is " ++ cs.pyStr ++ "."

/-- The body of `RoboChef.take_action` (the outer try of lines 147-239):
one decision-and-act cycle.  Returns the mutated state together with
either `(new_state, done)` or the raised exception. -/
def takeActionBody (env : AttemptEnv) (st0 : AgentState) (cs : JValue) :
    AgentState × Except PyErr (JValue × Bool) :=
  let st := refreshedState env st0
  if st.task.status = TaskStatus.canceling ∨ st.task.status = TaskStatus.canceled then
    if st.task.status = TaskStatus.canceling then
      let st := { st with task := { st.task with status := TaskStatus.canceled } }
      (saveTask st, Except.ok (cs, true))
    else
      (st, Except.ok (cs, true))
  else
    let st := appendMessage st (Message.human (humanPrompt cs))
    match env.chainResult with
    | Except.error e => (st, Except.error e)
    | Except.ok resp =>
      let st := appendMessage st (Message.ai resp.content)
      match env.jsonLoads resp.content with
      | Except.error m => (st, Except.error (PyErr.jsonDecodeError m))
      | Except.ok sel =>
        if sel.isFalsy then
          (st, Except.error (PyErr.valueError "No action selection parsed"))
        else
          match sel.getItem "observation" with
          | Except.error e => (st, Except.error e)
          | Except.ok obs =>
            let st := postMessage st ("👁️ " ++ obs.pyStr)
            match sel.getItem "reason" with
            | Except.error e => (st, Except.error e)
            | Except.ok rsn =>
              let st := postMessage st ("💡 " ++ rsn.pyStr)
              match sel.getItem "action" with
              | Except.error e => (st, Except.error e)
              | Except.ok act =>
                match act.getItem "name" with
                | Except.error e => (st, Except.error e)
                | Except.ok nm =>
                  match act.getItem "parameters" with
                  | Except.error e => (st, Except.error e)
                  | Except.ok prms =>
                    let st := postMessage st
                      ("▶️ Taking action \x27" ++ nm.pyStr ++
                        "\x27 with parameters: " ++ prms.pyStr)
                    if nm.isStrEq "result" then
                      match prms.getItem "value" with
                      | Except.error e => (st, Except.error e)
                      | Except.ok v =>
                        let st := postMessage st
                          ("✅ I think the task is done, please review the result: " ++
                            v.pyStr)
                        let st := { st with task :=
                          { st.task with status := TaskStatus.finished } }
                        (saveTask st, Except.ok (cs, true))
                    else
                      match env.findAction nm with
                      | none => (st, Except.error (PyErr.systemError "action not found"))
                      | some handle =>
                        match env.useAction handle prms with
                        | Except.error m =>
                            (st, Except.error
                              (PyErr.valueError ("Trouble using action: " ++ m)))
                        | Except.ok res =>
                          let st :=
                            if res.isFalsy then st
                            else postMessage st
                              ("👁️ Result from taking action: " ++ res.pyStr)
                          let st := { st with records := st.records ++
                            [{ action := act, tool := "RoboChefTool", result := res,
                               agentId := "RoboChef", model := resp.modelName }] }
                          (st, Except.ok (res, false))

/-- `RoboChef.take_action`: the body wrapped by the outer exception
handler, which posts a warning message and re-raises (lines 241-245). -/
def takeAction (env : AttemptEnv) (st : AgentState) (cs : JValue) :
    AgentState × Except PyErr (JValue × Bool) :=
  match takeActionBody env st cs with
  | (st1, Except.ok r) => (st1, Except.ok r)
  | (st1, Except.error e) =>
      (postMessage st1 ("⚠️ Error taking action: " ++ e.toStr ++ " -- retrying..."),
        Except.error e)

/-- The `tenacity` retry wrapper around `take_action`:
`stop=stop_after_attempt(5)` makes up to `fuel` total attempts (the
caller passes 5); a failed attempt that is not the last is followed by
another attempt on the state the failed attempt left behind; when the
last attempt fails the last exception escapes (wrapped by `tenacity` in
a `RetryError`, rendered by `retryErrStr` at the catch site).  `envs`
supplies the external behaviour of attempt number `idx`, counted across
the whole run; the third component of the result is the number of
attempts consumed.  The `fuel = 0` case is unreachable (the decorator
always makes a first attempt). -/
def retryTakeAction (envs : Nat → AttemptEnv) (idx : Nat) :
    Nat → AgentState → JValue → AgentState × Except PyErr (JValue × Bool) × Nat
  | 0, st, _ => (st, Except.error (PyErr.valueError "retry invariant"), 0)
  | Nat.succ fuel, st, cs =>
    match takeAction (envs idx) st cs with
    | (st1, Except.ok r) => (st1, Except.ok r, 1)
    | (st1, Except.error e) =>
      if fuel = 0 then (st1, Except.error e, 1)
      else
        match retryTakeAction envs (idx + 1) fuel st1 cs with
        | (st2, r, n) => (st2, r, n + 1)

/-- The step loop of `RoboChef.solve_task` (lines 97-121): up to
`stepsLeft` iterations; each iteration runs the retry-wrapped
`take_action`.  On an exception the task is marked FAILED with
`task.error = str(e)` (`e` being the `RetryError`), saved, and a failure
message posted; on `done` the task is returned as `take_action` left it;
when the budget is exhausted the task is marked FAILED, saved, and the
max-steps message posted.  The second component counts the loop
iterations that ran.  The `time.sleep(2)` throttle has no observable
effect in this model. -/
def solveLoop (envs : Nat → AttemptEnv) :
    Nat → Nat → AgentState → JValue → AgentState × Nat
  | 0, _, st, _ =>
    let st := { st with task := { st.task with status := TaskStatus.failed } }
    let st := saveTask st
    (postMessage st "❗ Max steps reached without solving task", 0)
  | Nat.succ stepsLeft, idx, st, cs =>
    match retryTakeAction envs idx 5 st cs with
    | (st1, Except.error e, _) =>
      let st1 := { st1 with task :=
        { st1.task with
            status := TaskStatus.failed
            error := some (retryErrStr e) } }
      let st1 := saveTask st1
      (postMessage st1 ("❗ Error taking action: " ++ retryErrStr e), 1)
    | (st1, Except.ok (_, true), _) => (st1, 1)
    | (st1, Except.ok (cs1, false), used) =>
      match solveLoop envs stepsLeft (idx + used) st1 cs1 with
      | (st2, steps) => (st2, steps + 1)

/-- The state at the top of `solve_task`, after the starting progress
message is posted and before the first step: empty message thread, no
saves, no records. -/
def startState (task : Task) : AgentState :=
  { task := task
    messages := []
    posted := ["Starting task \x27" ++ task.description ++ "\x27"]
    saves := []
    records := [] }

/-- `RoboChef.solve_task(task, max_steps)` (the default budget in the
source is 30): post the starting message, set
`current_state = task.description`, and run the step loop.  Returns the
final observable state and the number of loop iterations that ran. -/
def solveTask (envs : Nat → AttemptEnv) (task : Task) (maxSteps : Nat) :
    AgentState × Nat :=
  solveLoop envs maxSteps 0 (startState task) (JValue.str task.description)

/-- Witness data for one successful non-terminal attempt: the chain
response, the parsed selection and its parts, the resolved action handle
and the action result. -/
structure StepSpec where
  resp : ChainResponse
  sel : JValue
  obs : JValue
  rsn : JValue
  act : JValue
  nm : JValue
  prms : JValue
  handle : String
  res : JValue

/-- `e` behaves, on one attempt, as a successful non-terminal step
described by `d`: the chain call succeeds, the content parses to a
truthy selection carrying observation, reason and an action whose name
is not the terminal `result`, the registry resolves the name, and the
action invocation succeeds. -/
def realizesNonTerminal (e : AttemptEnv) (d : StepSpec) : Prop :=
  e.chainResult = Except.ok d.resp ∧
  e.jsonLoads d.resp.content = Except.ok d.sel ∧
  d.sel.isFalsy = false ∧
  d.sel.getItem "observation" = Except.ok d.obs ∧
  d.sel.getItem "reason" = Except.ok d.rsn ∧
  d.sel.getItem "action" = Except.ok d.act ∧
  d.act.getItem "name" = Except.ok d.nm ∧
  d.act.getItem "parameters" = Except.ok d.prms ∧
  d.nm.isStrEq "result" = false ∧
  e.findAction d.nm = some d.handle ∧
  e.useAction d.handle d.prms = Except.ok d.res

/-- Witness data for a terminal `result` proposal: like `StepSpec` but
the action name is the reserved `result` and the parameters carry a
`value` entry. -/
structure ResultSpec where
  resp : ChainResponse
  sel : JValue
  obs : JValue
  rsn : JValue
  act : JValue
  prms : JValue
  value : JValue

/-- `e` behaves, on one attempt, as a well-formed terminal `result`
proposal described by `d`. -/
def realizesResult (e : AttemptEnv) (d : ResultSpec) : Prop :=
  e.chainResult = Except.ok d.resp ∧
  e.jsonLoads d.resp.content = Except.ok d.sel ∧
  d.sel.isFalsy = false ∧
  d.sel.getItem "observation" = Except.ok d.obs ∧
  d.sel.getItem "reason" = Except.ok d.rsn ∧
  d.sel.getItem "action" = Except.ok d.act ∧
  d.act.getItem "name" = Except.ok (JValue.str "result") ∧
  d.act.getItem "parameters" = Except.ok d.prms ∧
  d.prms.getItem "value" = Except.ok d.value

/-- Witness data for a well-formed proposal naming an action the
registry does not know. -/
structure UnregSpec where
  resp : ChainResponse
  sel : JValue
  obs : JValue
  rsn : JValue
  act : JValue
  nm : JValue
  prms : JValue

/-- `e` behaves, on one attempt, as a proposal naming an unregistered
action described by `d`: everything parses, the name is not `result`,
and `find_action` returns None. -/
def realizesUnregistered (e : AttemptEnv) (d : UnregSpec) : Prop :=
  e.chainResult = Except.ok d.resp ∧
  e.jsonLoads d.resp.content = Except.ok d.sel ∧
  d.sel.isFalsy = false ∧
  d.sel.getItem "observation" = Except.ok d.obs ∧
  d.sel.getItem "reason" = Except.ok d.rsn ∧
  d.sel.getItem "action" = Except.ok d.act ∧
  d.act.getItem "name" = Except.ok d.nm ∧
  d.act.getItem "parameters" = Except.ok d.prms ∧
  d.nm.isStrEq "result" = false ∧
  e.findAction d.nm = none

/-- The progress messages a successful non-terminal step posts, in
order: observation, reason, chosen action, and the action result when
it is truthy. -/
def stepPosts (d : StepSpec) : List String :=
  ["👁️ " ++ d.obs.pyStr, "💡 " ++ d.rsn.pyStr,
   "▶️ Taking action \x27" ++ d.nm.pyStr ++ "\x27 with parameters: " ++ d.prms.pyStr] ++
  (if d.res.isFalsy then [] else ["👁️ Result from taking action: " ++ d.res.pyStr])

/-- The action record a successful non-terminal step appends. -/
def stepRecord (d : StepSpec) : ActionRecord :=
  { action := d.act, tool := "RoboChefTool", result := d.res,
    agentId := "RoboChef", model := d.resp.modelName }

/-- The progress messages a well-formed terminal `result` step posts, in
order: observation, reason, chosen action, completion message. -/
def resultPosts (d : ResultSpec) : List String :=
  ["👁️ " ++ d.obs.pyStr, "💡 " ++ d.rsn.pyStr,
   "▶️ Taking action \x27result\x27 with parameters: " ++ d.prms.pyStr,
   "✅ I think the task is done, please review the result: " ++ d.value.pyStr]

/-- The progress messages an unregistered-action step posts, in order:
observation, reason, chosen action, and the retry warning posted by the
outer exception handler. -/
def unregPosts (d : UnregSpec) : List String :=
  ["👁️ " ++ d.obs.pyStr, "💡 " ++ d.rsn.pyStr,
   "▶️ Taking action \x27" ++ d.nm.pyStr ++ "\x27 with parameters: " ++ d.prms.pyStr,
   "⚠️ Error taking action: action not found -- retrying..."]

/-- A successful non-terminal attempt: appends the user and oracle
messages to the shared thread, posts its progress messages, appends one
action record, leaves task, saves and everything else unchanged, and
returns the action result with `done = false`. -/
theorem takeAction_nonTerminal (e : AttemptEnv) (d : StepSpec) (st : AgentState)
    (cs : JValue) (hd : realizesNonTerminal e d) (hrem : st.task.remote = false)
    (hst : st.task.status = TaskStatus.running) :
    takeAction e st cs =
      ({ st with
          messages := st.messages ++ [Message.human (humanPrompt cs), Message.ai d.resp.content]
          posted := st.posted ++ stepPosts d
          records := st.records ++ [stepRecord d] },
        Except.ok (d.res, false)) := by
  obtain ⟨h1, h2, h3, h4, h5, h6, h7, h8, h9, h10, h11⟩ := hd
  cases hfalsy : d.res.isFalsy <;>
    simp [takeAction, takeActionBody, refreshedState, hrem, hst, h1, h2, h3, h4, h5,
      h6, h7, h8, h9, h10, h11, appendMessage, postMessage, stepPosts, stepRecord,
      hfalsy]

/-- A well-formed terminal `result` attempt: appends the user and oracle
messages, posts observation, reason, action and completion messages,
sets the status to FINISHED, saves exactly once, creates no action
record, and returns the state value unchanged with `done = true`. -/
theorem takeAction_result (e : AttemptEnv) (d : ResultSpec) (st : AgentState)
    (cs : JValue) (hd : realizesResult e d) (hrem : st.task.remote = false)
    (hst : st.task.status = TaskStatus.running) :
    takeAction e st cs =
      ({ st with
          messages := st.messages ++ [Message.human (humanPrompt cs), Message.ai d.resp.content]
          posted := st.posted ++ resultPosts d
          task := { st.task with status := TaskStatus.finished }
          saves := st.saves ++ [(TaskStatus.finished, st.task.error)] },
        Except.ok (cs, true)) := by
  obtain ⟨h1, h2, h3, h4, h5, h6, h7, h8, h9⟩ := hd
  simp [takeAction, takeActionBody, refreshedState, hrem, hst, h1, h2, h3, h4, h5,
    h6, h7, h8, h9, appendMessage, postMessage, saveTask, resultPosts, JValue.isStrEq,
    JValue.pyStr]

/-- An attempt whose proposal names an unregistered action: appends the
user and oracle messages, posts the progress and retry-warning messages,
raises the action-not-found error, and leaves task, saves and records
unchanged. -/
theorem takeAction_unregistered (e : AttemptEnv) (d : UnregSpec) (st : AgentState)
    (cs : JValue) (hd : realizesUnregistered e d) (hrem : st.task.remote = false)
    (hst : st.task.status = TaskStatus.running) :
    takeAction e st cs =
      ({ st with
          messages := st.messages ++ [Message.human (humanPrompt cs), Message.ai d.resp.content]
          posted := st.posted ++ unregPosts d },
        Except.error (PyErr.systemError "action not found")) := by
  obtain ⟨h1, h2, h3, h4, h5, h6, h7, h8, h9, h10⟩ := hd
  simp [takeAction, takeActionBody, refreshedState, hrem, hst, h1, h2, h3, h4, h5,
    h6, h7, h8, h9, h10, appendMessage, postMessage, unregPosts, PyErr.toStr]

/-- `refreshedState` only touches the task status. -/
theorem refreshedState_saves (env : AttemptEnv) (st : AgentState) :
    (refreshedState env st).saves = st.saves := by
  unfold refreshedState; split <;> rfl

/-- `refreshedState` leaves the task error unchanged. -/
theorem refreshedState_error (env : AttemptEnv) (st : AgentState) :
    (refreshedState env st).task.error = st.task.error := by
  unfold refreshedState; split <;> rfl

/-- `refreshedState` leaves the message thread unchanged. -/
theorem refreshedState_messages (env : AttemptEnv) (st : AgentState) :
    (refreshedState env st).messages = st.messages := by
  unfold refreshedState; split <;> rfl

/-- If `take_action` returns `done = true`, the final status is CANCELED
or FINISHED: the only `done` paths are the cancellation check and the
terminal `result` branch. -/
theorem takeActionBody_done_status (e : AttemptEnv) (st : AgentState) (cs : JValue)
    (st1 : AgentState) (v : JValue)
    (h : takeActionBody e st cs = (st1, Except.ok (v, true))) :
    st1.task.status = TaskStatus.canceled ∨ st1.task.status = TaskStatus.finished := by
  simp only [takeActionBody] at h
  repeat' split at h
  all_goals simp_all [saveTask, postMessage, appendMessage, Prod.mk.injEq]
  all_goals (obtain ⟨h1, -⟩ := h; subst h1; simp [saveTask])

/-- The outer exception handler does not change the `done` paths, so the
wrapped `take_action` has the same property. -/
theorem takeAction_done_status (e : AttemptEnv) (st : AgentState) (cs : JValue)
    (st1 : AgentState) (v : JValue)
    (h : takeAction e st cs = (st1, Except.ok (v, true))) :
    st1.task.status = TaskStatus.canceled ∨ st1.task.status = TaskStatus.finished := by
  unfold takeAction at h
  split at h
  · rename_i st2 r heq
    obtain ⟨h1, h2⟩ := Prod.mk.injEq .. ▸ h
    exact takeActionBody_done_status e st cs st1 v (by rw [heq, h1, h2])
  · simp at h

/-- A retried `take_action` that reports `done = true` got it from one
successful attempt, so the final status is CANCELED or FINISHED. -/
theorem retryTakeAction_done_status (envs : Nat → AttemptEnv) (fuel : Nat) :
    ∀ (idx : Nat) (st : AgentState) (cs : JValue) (st1 : AgentState) (v : JValue)
      (n : Nat),
      retryTakeAction envs idx fuel st cs = (st1, Except.ok (v, true), n) →
      st1.task.status = TaskStatus.canceled ∨ st1.task.status = TaskStatus.finished := by
  induction fuel with
  | zero =>
    intro idx st cs st1 v n h
    simp [retryTakeAction] at h
  | succ fuel ih =>
    intro idx st cs st1 v n h
    rw [retryTakeAction] at h
    split at h
    · rename_i st2 r heq
      simp only [Prod.mk.injEq, Except.ok.injEq] at h
      obtain ⟨rfl, rfl, -⟩ := h
      exact takeAction_done_status (envs idx) st cs _ v heq
    · rename_i st2 e2 heq
      split at h
      · simp at h
      · split at h
        rename_i st3 r3 n3 heq3
        simp only [Prod.mk.injEq, Except.ok.injEq] at h
        obtain ⟨rfl, rfl, -⟩ := h
        exact ih (idx + 1) st2 cs _ v n3 heq3

/-- Every return path of the step loop carries a terminal status:
exception and budget exhaustion set FAILED, a `done` step left CANCELED
or FINISHED. -/
theorem solveLoop_terminal (envs : Nat → AttemptEnv) (m : Nat) :
    ∀ (idx : Nat) (st : AgentState) (cs : JValue),
      (solveLoop envs m idx st cs).1.task.status = TaskStatus.finished ∨
      (solveLoop envs m idx st cs).1.task.status = TaskStatus.failed ∨
      (solveLoop envs m idx st cs).1.task.status = TaskStatus.canceled := by
  induction m with
  | zero =>
    intro idx st cs
    right; left
    simp [solveLoop, saveTask, postMessage]
  | succ m ih =>
    intro idx st cs
    simp only [solveLoop]
    split
    · right; left
      simp [saveTask, postMessage]
    · rename_i st1 vb n heq
      rcases retryTakeAction_done_status envs 5 idx st cs st1 vb n heq with h | h
      · right; right; exact h
      · left; exact h
    · rename_i st1 cs1 n heq
      simpa using ih (idx + n) st1 cs1

/-- The content of the oracle reply an attempt appended, when the chain
call succeeded. -/
def aiContentOf (e : AttemptEnv) : String :=
  match e.chainResult with
  | Except.ok r => r.content
  | Except.error _ => ""

/-- A failed attempt mutates the shared message thread in place: the
user message of the attempt (and, when the chain call returned, the
oracle reply) stays in the history that the next attempt and the next
step receive. -/
theorem takeActionBody_failure_messages (e : AttemptEnv) (st : AgentState)
    (cs : JValue) (st1 : AgentState) (ex : PyErr)
    (h : takeActionBody e st cs = (st1, Except.error ex)) :
    st1.messages = st.messages ++ [Message.human (humanPrompt cs)] ∨
    st1.messages =
      st.messages ++ [Message.human (humanPrompt cs), Message.ai (aiContentOf e)] := by
  simp only [takeActionBody] at h
  repeat' split at h
  all_goals simp only [Prod.mk.injEq] at h
  all_goals
    first
      | (exact Except.noConfusion h.2)
      | (obtain ⟨h1, -⟩ := h; subst h1;
         simp_all [appendMessage, postMessage, refreshedState_messages, aiContentOf])

/-- The wrapped `take_action` mutates the shared message thread in place
on failure: the same statement as for the body, since the outer handler
only posts a warning. -/
theorem takeAction_failure_messages (e : AttemptEnv) (st : AgentState)
    (cs : JValue) (st1 : AgentState) (ex : PyErr)
    (h : takeAction e st cs = (st1, Except.error ex)) :
    st1.messages = st.messages ++ [Message.human (humanPrompt cs)] ∨
    st1.messages =
      st.messages ++ [Message.human (humanPrompt cs), Message.ai (aiContentOf e)] := by
  unfold takeAction at h
  split at h
  · simp only [Prod.mk.injEq] at h
    exact absurd h.2 (fun hc => Except.noConfusion hc)
  · rename_i st2 e2 heq
    simp only [Prod.mk.injEq] at h
    obtain ⟨h1, -⟩ := h
    subst h1
    simpa [postMessage] using takeActionBody_failure_messages e st cs st2 e2 heq

/-- A first attempt that succeeds ends the retry loop after one attempt. -/
theorem retryTakeAction_first_ok (envs : Nat → AttemptEnv) (idx fuel : Nat)
    (st st1 : AgentState) (cs : JValue) (r : JValue × Bool)
    (h : takeAction (envs idx) st cs = (st1, Except.ok r)) :
    retryTakeAction envs idx (Nat.succ fuel) st cs = (st1, Except.ok r, 1) := by
  rw [retryTakeAction, h]

/-- When every attempt proposes an unregistered action, the retry loop
consumes its whole budget, fails with the action-not-found error, and
never touches the task fields (status and error in particular). -/
theorem retryTakeAction_unregistered (envs : Nat → AttemptEnv)
    (ds : Nat → UnregSpec) (hall : ∀ i, realizesUnregistered (envs i) (ds i))
    (fuel : Nat) :
    ∀ (idx : Nat) (st : AgentState) (cs : JValue),
      0 < fuel → st.task.remote = false → st.task.status = TaskStatus.running →
      ∃ stF, retryTakeAction envs idx fuel st cs =
          (stF, Except.error (PyErr.systemError "action not found"), fuel) ∧
        stF.task = st.task ∧ stF.saves = st.saves ∧ stF.records = st.records := by
  induction fuel with
  | zero => intro idx st cs hpos; exact absurd hpos (by simp)
  | succ fuel ih =>
    intro idx st cs _ hrem hst
    rw [retryTakeAction,
      takeAction_unregistered (envs idx) (ds idx) st cs (hall idx) hrem hst]
    by_cases hf : fuel = 0
    · subst hf
      exact ⟨_, rfl, rfl, rfl, rfl⟩
    · obtain ⟨stF, hF, htask, hsaves, hrecords⟩ :=
        ih (idx + 1)
          ({ st with
              messages := st.messages ++
                [Message.human (humanPrompt cs), Message.ai (ds idx).resp.content]
              posted := st.posted ++ unregPosts (ds idx) })
          cs (Nat.pos_of_ne_zero hf) hrem hst
      refine ⟨stF, ?_, htask, hsaves, hrecords⟩
      simp only [hf, if_false, hF]

/-- The conversation messages a run of successful first-attempt
non-terminal steps appends, in step order: for each step, the user
message built from the state value of that step, then the oracle reply
of that step; the state value of the next step is the action result of
this one. -/
def buildMsgs (ds : Nat → StepSpec) : Nat → Nat → JValue → List Message
  | 0, _, _ => []
  | Nat.succ m, idx, cs =>
      [Message.human (humanPrompt cs), Message.ai (ds idx).resp.content] ++
        buildMsgs ds m (idx + 1) (ds idx).res

/-- The progress messages such a run posts, in step order. -/
def buildPosts (ds : Nat → StepSpec) : Nat → Nat → List String
  | 0, _ => []
  | Nat.succ m, idx => stepPosts (ds idx) ++ buildPosts ds m (idx + 1)

/-- The action records such a run appends, one per step, in step order. -/
def buildRecords (ds : Nat → StepSpec) : Nat → Nat → List ActionRecord
  | 0, _ => []
  | Nat.succ m, idx => stepRecord (ds idx) :: buildRecords ds m (idx + 1)

/-- One record per successful non-terminal step. -/
theorem buildRecords_length (ds : Nat → StepSpec) (m : Nat) :
    ∀ idx, (buildRecords ds m idx).length = m := by
  induction m with
  | zero => intro idx; rfl
  | succ m ih => intro idx; simp [buildRecords, ih (idx + 1)]

/-- A run in which every attempt is a successful non-terminal step runs
the loop to exhaustion: each step consumes one attempt and appends its
two conversation messages, its progress posts and its one action record;
the loop then marks the task FAILED, saves exactly once, and posts the
max-steps message. -/
theorem solveLoop_allNonTerminal (envs : Nat → AttemptEnv)
    (ds : Nat → StepSpec) (hall : ∀ i, realizesNonTerminal (envs i) (ds i))
    (m : Nat) :
    ∀ (idx : Nat) (st : AgentState) (cs : JValue),
      st.task.remote = false → st.task.status = TaskStatus.running →
      solveLoop envs m idx st cs =
        (postMessage
          (saveTask
            { st with
                messages := st.messages ++ buildMsgs ds m idx cs
                posted := st.posted ++ buildPosts ds m idx
                records := st.records ++ buildRecords ds m idx
                task := { st.task with status := TaskStatus.failed } })
          "❗ Max steps reached without solving task", m) := by
  induction m with
  | zero =>
    intro idx st cs hrem hst
    simp [solveLoop, buildMsgs, buildPosts, buildRecords]
  | succ m ih =>
    intro idx st cs hrem hst
    have hstep := retryTakeAction_first_ok envs idx 4 st _ cs _
        (takeAction_nonTerminal (envs idx) (ds idx) st cs (hall idx) hrem hst)
    simp only [solveLoop, show (5 : Nat) = Nat.succ 4 from rfl, hstep]
    rw [ih (idx + 1)
      ({ st with
          messages := st.messages ++
            [Message.human (humanPrompt cs), Message.ai (ds idx).resp.content]
          posted := st.posted ++ stepPosts (ds idx)
          records := st.records ++ [stepRecord (ds idx)] })
      (ds idx).res hrem hst]
    simp [buildMsgs, buildPosts, buildRecords, postMessage, saveTask]

/-- If the first `k` attempts are successful non-terminal steps and
attempt `k` (0-based) is a well-formed terminal `result` proposal, the
loop stops after `k + 1` iterations with status FINISHED, saved exactly
once by the terminal step. -/
theorem solveLoop_resultAfter (envs : Nat → AttemptEnv) (ds : Nat → StepSpec)
    (dr : ResultSpec) (k : Nat) :
    ∀ (m idx : Nat) (st : AgentState) (cs : JValue),
      (∀ i, i < k → realizesNonTerminal (envs (idx + i)) (ds (idx + i))) →
      realizesResult (envs (idx + k)) dr →
      k < m →
      st.task.remote = false → st.task.status = TaskStatus.running →
      (solveLoop envs m idx st cs).2 = k + 1 ∧
      (solveLoop envs m idx st cs).1.task.status = TaskStatus.finished ∧
      (solveLoop envs m idx st cs).1.saves =
        st.saves ++ [(TaskStatus.finished, st.task.error)] ∧
      (solveLoop envs m idx st cs).1.records =
        st.records ++ buildRecords ds k idx := by
  induction k with
  | zero =>
    intro m idx st cs _ hres hlt hrem hst
    obtain ⟨m, rfl⟩ : ∃ m1, m = Nat.succ m1 :=
      ⟨m - 1, by omega⟩
    have hstep := retryTakeAction_first_ok envs idx 4 st _ cs _
        (takeAction_result (envs idx) dr st cs (by simpa using hres) hrem hst)
    simp only [solveLoop, show (5 : Nat) = Nat.succ 4 from rfl, hstep]
    simp [saveTask, buildRecords]
  | succ k ih =>
    intro m idx st cs hnt hres hlt hrem hst
    obtain ⟨m, rfl⟩ : ∃ m1, m = Nat.succ m1 :=
      ⟨m - 1, by omega⟩
    have hstep := retryTakeAction_first_ok envs idx 4 st _ cs _
        (takeAction_nonTerminal (envs idx) (ds idx) st cs
          (by simpa using hnt 0 (Nat.succ_pos k)) hrem hst)
    simp only [solveLoop, show (5 : Nat) = Nat.succ 4 from rfl, hstep]
    have hrec := ih m (idx + 1)
      ({ st with
          messages := st.messages ++
            [Message.human (humanPrompt cs), Message.ai (ds idx).resp.content]
          posted := st.posted ++ stepPosts (ds idx)
          records := st.records ++ [stepRecord (ds idx)] })
      (ds idx).res
      (fun i hi => by
        have := hnt (i + 1) (by omega)
        simpa [Nat.add_assoc, Nat.add_comm 1 i] using this)
      (by
        have : idx + 1 + k = idx + (k + 1) := by omega
        rw [this]; exact hres)
      (by omega) hrem hst
    obtain ⟨hsteps, hstatus, hsaves, hrecords⟩ := hrec
    refine ⟨by simp [hsteps], by simp [hstatus], by simpa using hsaves, ?_⟩
    simp only [hrecords]
    simp [buildRecords, List.append_assoc]

/-- A step whose retried `take_action` raised: `solve_task` catches the
exception, marks the task FAILED with `task.error = str(e)`, saves,
posts the failure message and returns after this iteration. -/
theorem solveLoop_errorStep (envs : Nat → AttemptEnv) (m idx : Nat)
    (st st1 : AgentState) (cs : JValue) (e : PyErr) (n : Nat)
    (h : retryTakeAction envs idx 5 st cs = (st1, Except.error e, n)) :
    solveLoop envs (Nat.succ m) idx st cs =
      (postMessage
        (saveTask
          { st1 with task :=
            { st1.task with
                status := TaskStatus.failed
                error := some (retryErrStr e) } })
        ("❗ Error taking action: " ++ retryErrStr e), 1) := by
  simp only [solveLoop, h]

/-- Concrete chain response used by the witness scenarios. -/
def respW : ChainResponse :=
  { content := "RAW", modelName := "gpt-3.5-turbo" }

/-- Concrete parameters of the `search` proposal. -/
def searchParams : JValue :=
  JValue.obj [("query", JValue.str "pasta recipe")]

/-- Concrete `search` action value of the non-terminal proposal. -/
def searchAct : JValue :=
  JValue.obj [("name", JValue.str "search"), ("parameters", searchParams)]

/-- Concrete parsed selection proposing the registered `search` action. -/
def selSearch : JValue :=
  JValue.obj [("observation", JValue.str "recipe sites available"),
              ("reason", JValue.str "need to look up recipes"),
              ("action", searchAct)]

/-- Witness data of the `search` step. -/
def dsSearch : StepSpec :=
  { resp := respW, sel := selSearch,
    obs := JValue.str "recipe sites available",
    rsn := JValue.str "need to look up recipes",
    act := searchAct, nm := JValue.str "search", prms := searchParams,
    handle := "search", res := JValue.str "Spaghetti Aglio e Olio" }

/-- Environment of one successful `search` attempt. -/
def envSearch : AttemptEnv :=
  { refreshedStatus := TaskStatus.running,
    chainResult := Except.ok respW,
    jsonLoads := fun _ => Except.ok selSearch,
    findAction := fun v => if v.isStrEq "search" then some "search" else none,
    useAction := fun _ _ => Except.ok (JValue.str "Spaghetti Aglio e Olio") }

/-- `envSearch` realizes the `search` step data. -/
theorem envSearch_realizes : realizesNonTerminal envSearch dsSearch :=
  ⟨rfl, rfl, rfl, rfl, rfl, rfl, rfl, rfl, rfl, rfl, rfl⟩

/-- Concrete terminal `result` action value. -/
def resultAct : JValue :=
  JValue.obj [("name", JValue.str "result"),
              ("parameters", JValue.obj [("value", JValue.str "Spaghetti Aglio e Olio")])]

/-- Concrete parsed selection proposing the terminal `result` action. -/
def selResult : JValue :=
  JValue.obj [("observation", JValue.str "recipe found"),
              ("reason", JValue.str "task is solved"),
              ("action", resultAct)]

/-- Witness data of the terminal step. -/
def drResult : ResultSpec :=
  { resp := respW, sel := selResult,
    obs := JValue.str "recipe found",
    rsn := JValue.str "task is solved",
    act := resultAct,
    prms := JValue.obj [("value", JValue.str "Spaghetti Aglio e Olio")],
    value := JValue.str "Spaghetti Aglio e Olio" }

/-- Environment of one terminal `result` attempt. -/
def envResult : AttemptEnv :=
  { refreshedStatus := TaskStatus.running,
    chainResult := Except.ok respW,
    jsonLoads := fun _ => Except.ok selResult,
    findAction := fun _ => none,
    useAction := fun _ _ => Except.error "unused" }

/-- `envResult` realizes the terminal step data. -/
theorem envResult_realizes : realizesResult envResult drResult :=
  ⟨rfl, rfl, rfl, rfl, rfl, rfl, rfl, rfl, rfl⟩

/-- Concrete unregistered action proposal. -/
def unregAct : JValue :=
  JValue.obj [("name", JValue.str "frobnicate"),
              ("parameters", JValue.obj [("target", JValue.str "oven")])]

/-- Concrete parsed selection proposing the unregistered action. -/
def selUnreg : JValue :=
  JValue.obj [("observation", JValue.str "oven is cold"),
              ("reason", JValue.str "must frobnicate"),
              ("action", unregAct)]

/-- Witness data of the unregistered-action attempt. -/
def duUnreg : UnregSpec :=
  { resp := respW, sel := selUnreg,
    obs := JValue.str "oven is cold",
    rsn := JValue.str "must frobnicate",
    act := unregAct, nm := JValue.str "frobnicate",
    prms := JValue.obj [("target", JValue.str "oven")] }

/-- Environment of one unregistered-action attempt: the registry knows
nothing. -/
def envUnreg : AttemptEnv :=
  { refreshedStatus := TaskStatus.running,
    chainResult := Except.ok respW,
    jsonLoads := fun _ => Except.ok selUnreg,
    findAction := fun _ => none,
    useAction := fun _ _ => Except.error "unused" }

/-- `envUnreg` realizes the unregistered-action data. -/
theorem envUnreg_realizes : realizesUnregistered envUnreg duUnreg :=
  ⟨rfl, rfl, rfl, rfl, rfl, rfl, rfl, rfl, rfl, rfl⟩

/-- Environment whose oracle answer parses to JSON `null` (an empty
proposal). -/
def envEmpty : AttemptEnv :=
  { refreshedStatus := TaskStatus.running,
    chainResult := Except.ok respW,
    jsonLoads := fun _ => Except.ok JValue.null,
    findAction := fun _ => none,
    useAction := fun _ _ => Except.error "unused" }

/-- Concrete running task of the witness scenarios. -/
def taskW : Task :=
  { description := "find a pasta recipe", status := TaskStatus.running,
    error := none, remote := false }

/-- Concrete task observed as CANCELING. -/
def taskCancelW : Task :=
  { description := "find a pasta recipe", status := TaskStatus.canceling,
    error := none, remote := false }

/-- C1 counterexample.  The claim states that each attempt works on a
clone so that a failed attempt leaves the shared conversation history
exactly as before the attempt.  On a concrete failing attempt (the
oracle reply parses to JSON null), the shared message list is changed:
`take_action` appended the user message and the oracle reply in place
and they survive the raised exception. -/
theorem claim1_counterexample :
    (takeAction envEmpty (startState taskW) (JValue.str taskW.description)).2 =
      Except.error (PyErr.valueError "No action selection parsed") ∧
    (takeAction envEmpty (startState taskW) (JValue.str taskW.description)).1.messages ≠
      (startState taskW).messages := by
  constructor
  · rfl
  · decide

/-- C1 (amended): `take_action` does not clone the conversation and
strips nothing from it; it appends the user message and the oracle
reply to the shared list in place, so a failed attempt leaves exactly
those appended messages in the history seen by later attempts and later
steps (the user message alone when the chain call itself raised). -/
theorem claim1_inPlaceMutation (e : AttemptEnv) (st : AgentState) (cs : JValue)
    (st1 : AgentState) (ex : PyErr)
    (h : takeAction e st cs = (st1, Except.error ex)) :
    st1.messages = st.messages ++ [Message.human (humanPrompt cs)] ∨
    st1.messages =
      st.messages ++ [Message.human (humanPrompt cs), Message.ai (aiContentOf e)] :=
  takeAction_failure_messages e st cs st1 ex h

/-- C1 amended witness: the concrete failing attempt of the
counterexample keeps its two appended messages. -/
theorem claim1_inPlaceMutation_witness :
    (takeAction envEmpty (startState taskW) (JValue.str taskW.description)).1.messages =
      (startState taskW).messages ++
        [Message.human (humanPrompt (JValue.str taskW.description))] ∨
    (takeAction envEmpty (startState taskW) (JValue.str taskW.description)).1.messages =
      (startState taskW).messages ++
        [Message.human (humanPrompt (JValue.str taskW.description)),
         Message.ai (aiContentOf envEmpty)] :=
  claim1_inPlaceMutation envEmpty (startState taskW) (JValue.str taskW.description)
    (takeAction envEmpty (startState taskW) (JValue.str taskW.description)).1
    (PyErr.valueError "No action selection parsed") rfl

/-- C3: when the status observed at the top of the step (after the
remote refresh, when any) is CANCELING, `take_action` transitions it to
CANCELED, persists exactly that one transition, and returns
`done = true` with the state value unchanged; the result is written
without any use of the oracle or registry parts of the environment, and
messages, posted messages and records are untouched.  When the observed
status is already CANCELED, it returns `done = true` with no mutation
and no persistence at all. -/
theorem claim3_cancelStep (env : AttemptEnv) (st : AgentState) (cs : JValue) :
    ((refreshedState env st).task.status = TaskStatus.canceling →
      takeAction env st cs =
        ({ refreshedState env st with
            task := { (refreshedState env st).task with status := TaskStatus.canceled }
            saves := st.saves ++ [(TaskStatus.canceled, st.task.error)] },
          Except.ok (cs, true))) ∧
    ((refreshedState env st).task.status = TaskStatus.canceled →
      takeAction env st cs = (refreshedState env st, Except.ok (cs, true))) := by
  constructor
  · intro h
    simp [takeAction, takeActionBody, h, saveTask, refreshedState_saves,
      refreshedState_error]
  · intro h
    simp [takeAction, takeActionBody, h]

/-- Concrete task already CANCELED. -/
def taskCanceledW : Task :=
  { description := "find a pasta recipe", status := TaskStatus.canceled,
    error := none, remote := false }

/-- C3 witness: a concrete non-remote CANCELING task is canceled with
exactly one save, and a concrete CANCELED task is returned untouched. -/
theorem claim3_cancelStep_witness :
    (takeAction envEmpty (startState taskCancelW) (JValue.str taskCancelW.description) =
      ({ refreshedState envEmpty (startState taskCancelW) with
          task := { (refreshedState envEmpty (startState taskCancelW)).task with
            status := TaskStatus.canceled }
          saves := (startState taskCancelW).saves ++
            [(TaskStatus.canceled, (startState taskCancelW).task.error)] },
        Except.ok (JValue.str taskCancelW.description, true))) ∧
    (takeAction envEmpty (startState taskCanceledW) (JValue.str taskCanceledW.description) =
      (refreshedState envEmpty (startState taskCanceledW),
        Except.ok (JValue.str taskCanceledW.description, true))) :=
  ⟨(claim3_cancelStep envEmpty (startState taskCancelW)
      (JValue.str taskCancelW.description)).1 rfl,
   (claim3_cancelStep envEmpty (startState taskCanceledW)
      (JValue.str taskCanceledW.description)).2 rfl⟩

/-- C4: a well-formed terminal `result` proposal makes `take_action` set
status FINISHED, persist it once, and return `done = true` with the
state value equal to the one passed in; no action record is created
(the records field of the returned state is untouched). -/
theorem claim4_resultStep (e : AttemptEnv) (d : ResultSpec) (st : AgentState)
    (cs : JValue) (hd : realizesResult e d) (hrem : st.task.remote = false)
    (hst : st.task.status = TaskStatus.running) :
    takeAction e st cs =
      ({ st with
          messages := st.messages ++
            [Message.human (humanPrompt cs), Message.ai d.resp.content]
          posted := st.posted ++ resultPosts d
          task := { st.task with status := TaskStatus.finished }
          saves := st.saves ++ [(TaskStatus.finished, st.task.error)] },
        Except.ok (cs, true)) :=
  takeAction_result e d st cs hd hrem hst

/-- C4 witness: the concrete terminal proposal at the start state. -/
theorem claim4_resultStep_witness :
    takeAction envResult (startState taskW) (JValue.str taskW.description) =
      ({ startState taskW with
          messages := (startState taskW).messages ++
            [Message.human (humanPrompt (JValue.str taskW.description)),
             Message.ai drResult.resp.content]
          posted := (startState taskW).posted ++ resultPosts drResult
          task := { (startState taskW).task with status := TaskStatus.finished }
          saves := (startState taskW).saves ++
            [(TaskStatus.finished, (startState taskW).task.error)] },
        Except.ok (JValue.str taskW.description, true)) :=
  claim4_resultStep envResult drResult (startState taskW)
    (JValue.str taskW.description) envResult_realizes rfl rfl

/-- C8: whatever the oracle, registry, parser and remote store do, a run
that starts on a non-terminal status returns with status FINISHED,
FAILED or CANCELED: every return path of the loop sets or inherits a
terminal status. -/
theorem claim8_terminalStatus (envs : Nat → AttemptEnv) (task : Task) (m : Nat)
    (hinit : task.status = TaskStatus.running ∨ task.status = TaskStatus.canceling) :
    (solveTask envs task m).1.task.status = TaskStatus.finished ∨
    (solveTask envs task m).1.task.status = TaskStatus.failed ∨
    (solveTask envs task m).1.task.status = TaskStatus.canceled :=
  solveLoop_terminal envs m 0 (startState task) (JValue.str task.description)

/-- C8 witness: a concrete one-step run from a RUNNING task. -/
theorem claim8_terminalStatus_witness :
    (solveTask (fun _ => envEmpty) taskW 1).1.task.status = TaskStatus.finished ∨
    (solveTask (fun _ => envEmpty) taskW 1).1.task.status = TaskStatus.failed ∨
    (solveTask (fun _ => envEmpty) taskW 1).1.task.status = TaskStatus.canceled :=
  claim8_terminalStatus (fun _ => envEmpty) taskW 1 (Or.inl rfl)

/-- C2: when every attempt of a step proposes an unregistered action,
the retried `take_action` fails after exactly 5 attempts with the
action-not-found error (the `SystemError("action not found")` the spec
calls `ActionNotFoundError`); the run then ends with status FAILED and
persists, as the one saved error, the string of the `RetryError`
wrapping that exception, after exactly this one loop iteration. -/
theorem claim2_unregisteredRun (envs : Nat → AttemptEnv) (ds : Nat → UnregSpec)
    (task : Task) (m : Nat)
    (hall : ∀ i, realizesUnregistered (envs i) (ds i))
    (hrem : task.remote = false) (hst : task.status = TaskStatus.running) :
    (∃ stF, retryTakeAction envs 0 5 (startState task)
        (JValue.str task.description) =
        (stF, Except.error (PyErr.systemError "action not found"), 5)) ∧
    (solveTask envs task (Nat.succ m)).1.task.status = TaskStatus.failed ∧
    (solveTask envs task (Nat.succ m)).1.task.error =
      some (retryErrStr (PyErr.systemError "action not found")) ∧
    (solveTask envs task (Nat.succ m)).1.saves =
      [(TaskStatus.failed, some (retryErrStr (PyErr.systemError "action not found")))] ∧
    (solveTask envs task (Nat.succ m)).2 = 1 := by
  obtain ⟨stF, hretry, htask, hsaves, hrecords⟩ :=
    retryTakeAction_unregistered envs ds hall 5 0 (startState task)
      (JValue.str task.description) (by omega) hrem hst
  have hrun := solveLoop_errorStep envs m 0 (startState task) stF
    (JValue.str task.description) (PyErr.systemError "action not found") 5 hretry
  refine ⟨⟨stF, hretry⟩, ?_, ?_, ?_, ?_⟩ <;>
    simp only [solveTask] <;>
    rw [hrun] <;>
    simp [postMessage, saveTask, hsaves, startState]

/-- C2 witness: the concrete unregistered `frobnicate` proposal on
every attempt of a one-step budget. -/
theorem claim2_unregisteredRun_witness :
    (∃ stF, retryTakeAction (fun _ => envUnreg) 0 5 (startState taskW)
        (JValue.str taskW.description) =
        (stF, Except.error (PyErr.systemError "action not found"), 5)) ∧
    (solveTask (fun _ => envUnreg) taskW (Nat.succ 0)).1.task.status =
      TaskStatus.failed ∧
    (solveTask (fun _ => envUnreg) taskW (Nat.succ 0)).1.task.error =
      some (retryErrStr (PyErr.systemError "action not found")) ∧
    (solveTask (fun _ => envUnreg) taskW (Nat.succ 0)).1.saves =
      [(TaskStatus.failed, some (retryErrStr (PyErr.systemError "action not found")))] ∧
    (solveTask (fun _ => envUnreg) taskW (Nat.succ 0)).2 = 1 :=
  claim2_unregisteredRun (fun _ => envUnreg) (fun _ => duUnreg) taskW 0
    (fun _ => envUnreg_realizes) rfl rfl

/-- C5: when every step succeeds with a non-terminal action and no
terminal proposal ever arrives, the loop exhausts the whole budget: the
run ends FAILED with that status persisted (the single save of the
run), exactly `maxSteps` action records exist (one per step), and the
max-steps message is the final posted message. -/
theorem claim5_maxSteps (envs : Nat → AttemptEnv) (ds : Nat → StepSpec)
    (task : Task) (m : Nat)
    (hall : ∀ i, realizesNonTerminal (envs i) (ds i))
    (hrem : task.remote = false) (hst : task.status = TaskStatus.running) :
    (solveTask envs task m).1.task.status = TaskStatus.failed ∧
    (solveTask envs task m).1.saves = [(TaskStatus.failed, task.error)] ∧
    (solveTask envs task m).1.records.length = m ∧
    (solveTask envs task m).1.posted =
      ((startState task).posted ++ buildPosts ds m 0) ++
        ["❗ Max steps reached without solving task"] ∧
    (solveTask envs task m).2 = m := by
  have hrun := solveLoop_allNonTerminal envs ds hall m 0 (startState task)
    (JValue.str task.description) hrem hst
  refine ⟨?_, ?_, ?_, ?_, ?_⟩ <;>
    simp only [solveTask] <;>
    rw [hrun] <;>
    simp [postMessage, saveTask, startState, buildRecords_length]

/-- C5 witness: two concrete successful `search` steps on a budget of
two. -/
theorem claim5_maxSteps_witness :
    (solveTask (fun _ => envSearch) taskW 2).1.task.status = TaskStatus.failed ∧
    (solveTask (fun _ => envSearch) taskW 2).1.saves =
      [(TaskStatus.failed, taskW.error)] ∧
    (solveTask (fun _ => envSearch) taskW 2).1.records.length = 2 ∧
    (solveTask (fun _ => envSearch) taskW 2).1.posted =
      ((startState taskW).posted ++ buildPosts (fun _ => dsSearch) 2 0) ++
        ["❗ Max steps reached without solving task"] ∧
    (solveTask (fun _ => envSearch) taskW 2).2 = 2 :=
  claim5_maxSteps (fun _ => envSearch) (fun _ => dsSearch) taskW 2
    (fun _ => envSearch_realizes) rfl rfl

/-- C9: across a run whose steps all succeed on their first attempt,
the conversation thread is exactly the per-step pairs in step order:
for each step its user message (built from that step state value) and
then the oracle reply of that step, nothing dropped or reordered
(`buildMsgs` lays the pairs out in step order by construction). -/
theorem claim9_messageOrder (envs : Nat → AttemptEnv) (ds : Nat → StepSpec)
    (task : Task) (m : Nat)
    (hall : ∀ i, realizesNonTerminal (envs i) (ds i))
    (hrem : task.remote = false) (hst : task.status = TaskStatus.running) :
    (solveTask envs task m).1.messages =
      buildMsgs ds m 0 (JValue.str task.description) := by
  have hrun := solveLoop_allNonTerminal envs ds hall m 0 (startState task)
    (JValue.str task.description) hrem hst
  simp only [solveTask]
  rw [hrun]
  simp [postMessage, saveTask, startState]

/-- C9 witness: the two-step concrete run lays out its four messages in
step order. -/
theorem claim9_messageOrder_witness :
    (solveTask (fun _ => envSearch) taskW 2).1.messages =
      buildMsgs (fun _ => dsSearch) 2 0 (JValue.str taskW.description) :=
  claim9_messageOrder (fun _ => envSearch) (fun _ => dsSearch) taskW 2
    (fun _ => envSearch_realizes) rfl rfl

/-- C6: if the oracle proposes the terminal `result` on step `n` of the
budget and valid non-terminal actions before, the run returns FINISHED
after exactly `n` loop iterations (one oracle attempt per step, none
after step `n`). -/
theorem claim6_finishAfterN (envs : Nat → AttemptEnv) (ds : Nat → StepSpec)
    (dr : ResultSpec) (task : Task) (n maxSteps : Nat)
    (hn : 0 < n) (hmax : n ≤ maxSteps)
    (hnt : ∀ i, i < n - 1 → realizesNonTerminal (envs i) (ds i))
    (hres : realizesResult (envs (n - 1)) dr)
    (hrem : task.remote = false) (hst : task.status = TaskStatus.running) :
    (solveTask envs task maxSteps).2 = n ∧
    (solveTask envs task maxSteps).1.task.status = TaskStatus.finished := by
  obtain ⟨hsteps, hstatus, -, -⟩ :=
    solveLoop_resultAfter envs ds dr (n - 1) maxSteps 0 (startState task)
      (JValue.str task.description)
      (fun i hi => by simpa using hnt i hi)
      (by simpa using hres)
      (by omega) hrem hst
  constructor
  · simp only [solveTask]
    rw [hsteps]
    omega
  · simp only [solveTask]
    exact hstatus

/-- The two-attempt environment of the concrete finishing scenario: a
`search` step, then the terminal `result`. -/
def envsTwoStep : Nat → AttemptEnv :=
  fun i => if i = 0 then envSearch else envResult

/-- C6 witness: the concrete pasta-recipe scenario of the spec — one
`search` step, then `result` on step 2 of a budget of 2 — ends FINISHED
after exactly 2 iterations. -/
theorem claim6_finishAfterN_witness :
    (solveTask envsTwoStep taskW 2).2 = 2 ∧
    (solveTask envsTwoStep taskW 2).1.task.status = TaskStatus.finished :=
  claim6_finishAfterN envsTwoStep (fun _ => dsSearch) drResult taskW 2 2
    (by decide) (by decide)
    (fun i hi => by
      have h0 : i = 0 := by omega
      subst h0
      exact envSearch_realizes)
    envResult_realizes rfl rfl

/-- An attempt whose oracle reply parses to a falsy value (null, empty
object, ...): both messages are appended, the `ValueError` with the
message `No action selection parsed` is raised, and only the retry
warning is posted. -/
theorem takeAction_emptyParse (e : AttemptEnv) (resp : ChainResponse)
    (sel : JValue) (st : AgentState) (cs : JValue)
    (hrem : st.task.remote = false) (hst : st.task.status = TaskStatus.running)
    (hchain : e.chainResult = Except.ok resp)
    (hload : e.jsonLoads resp.content = Except.ok sel)
    (hfalsy : sel.isFalsy = true) :
    takeAction e st cs =
      ({ st with
          messages := st.messages ++
            [Message.human (humanPrompt cs), Message.ai resp.content]
          posted := st.posted ++
            ["⚠️ Error taking action: No action selection parsed -- retrying..."] },
        Except.error (PyErr.valueError "No action selection parsed")) := by
  simp [takeAction, takeActionBody, refreshedState, hrem, hst, hchain, hload,
    hfalsy, appendMessage, postMessage, PyErr.toStr]

/-- An attempt whose oracle reply is not valid JSON: `json.loads`
raises the decode error, both messages are appended, and the retry
warning carries the decoder message. -/
theorem takeAction_badJson (e : AttemptEnv) (resp : ChainResponse) (msg : String)
    (st : AgentState) (cs : JValue)
    (hrem : st.task.remote = false) (hst : st.task.status = TaskStatus.running)
    (hchain : e.chainResult = Except.ok resp)
    (hload : e.jsonLoads resp.content = Except.error msg) :
    takeAction e st cs =
      ({ st with
          messages := st.messages ++
            [Message.human (humanPrompt cs), Message.ai resp.content]
          posted := st.posted ++
            ["⚠️ Error taking action: " ++ msg ++ " -- retrying..."] },
        Except.error (PyErr.jsonDecodeError msg)) := by
  simp [takeAction, takeActionBody, refreshedState, hrem, hst, hchain, hload,
    appendMessage, postMessage, PyErr.toStr]

/-- A first attempt that fails with remaining budget hands the mutated
state to the next attempt and adds one to its attempt count. -/
theorem retryTakeAction_first_error (envs : Nat → AttemptEnv) (idx fuel : Nat)
    (st st1 : AgentState) (cs : JValue) (e : PyErr)
    (h : takeAction (envs idx) st cs = (st1, Except.error e)) (hf : fuel ≠ 0) :
    retryTakeAction envs idx (Nat.succ fuel) st cs =
      ((retryTakeAction envs (idx + 1) fuel st1 cs).1,
       (retryTakeAction envs (idx + 1) fuel st1 cs).2.1,
       (retryTakeAction envs (idx + 1) fuel st1 cs).2.2 + 1) := by
  rw [retryTakeAction, h]
  simp [hf]

/-- C7 counterexample.  The claim quotes the parse failure as
`ParseError("no action selection parsed")`; the exception the code
raises at a concrete empty proposal carries the message
`No action selection parsed` (capital N, from
`ValueError("No action selection parsed")`), which differs from the
quoted string. -/
theorem claim7_counterexample :
    (takeAction envEmpty (startState taskW) (JValue.str taskW.description)).2 =
      Except.error (PyErr.valueError "No action selection parsed") ∧
    PyErr.valueError "No action selection parsed" ≠
      PyErr.valueError "no action selection parsed" := by
  exact ⟨rfl, by decide⟩

/-- C7 (amended): an empty (falsy) parsed proposal makes `take_action`
fail with `ValueError("No action selection parsed")` (the spec name for
it is ParseError; the message casing follows the code), a payload that
is not valid JSON makes it fail with the decoder error, and either
failure propagates to the retry wrapper rather than failing the run:
with a successful proposal on the next attempt, the retried step
returns normally after 2 attempts. -/
theorem claim7_parseErrorRetried (envs : Nat → AttemptEnv) (st : AgentState)
    (cs : JValue) (resp : ChainResponse) (sel : JValue) (d : StepSpec)
    (hrem : st.task.remote = false) (hst : st.task.status = TaskStatus.running)
    (hchain : (envs 0).chainResult = Except.ok resp)
    (hload : (envs 0).jsonLoads resp.content = Except.ok sel)
    (hfalsy : sel.isFalsy = true)
    (hnext : realizesNonTerminal (envs 1) d) :
    (takeAction (envs 0) st cs).2 =
      Except.error (PyErr.valueError "No action selection parsed") ∧
    (∀ (e : AttemptEnv) (resp2 : ChainResponse) (msg : String),
      e.chainResult = Except.ok resp2 →
      e.jsonLoads resp2.content = Except.error msg →
      (takeAction e st cs).2 = Except.error (PyErr.jsonDecodeError msg)) ∧
    ∃ st2, retryTakeAction envs 0 5 st cs =
      (st2, Except.ok (d.res, false), 2) := by
  have h0 := takeAction_emptyParse (envs 0) resp sel st cs hrem hst hchain
    hload hfalsy
  have h1 := takeAction_nonTerminal (envs 1) d
    ({ st with
        messages := st.messages ++
          [Message.human (humanPrompt cs), Message.ai resp.content]
        posted := st.posted ++
          ["⚠️ Error taking action: No action selection parsed -- retrying..."] })
    cs hnext hrem hst
  refine ⟨by rw [h0], ?_, ?_⟩
  · intro e resp2 msg hc hl
    rw [takeAction_badJson e resp2 msg st cs hrem hst hc hl]
  · refine ⟨(retryTakeAction envs 0 5 st cs).1, ?_⟩
    rw [show (5 : Nat) = Nat.succ 4 from rfl,
      retryTakeAction_first_error envs 0 4 st _ cs _ h0 (by decide),
      show (4 : Nat) = Nat.succ 3 from rfl,
      retryTakeAction_first_ok envs (0 + 1) 3 _ _ cs _ h1]

/-- Environments of the C7 witness: an empty proposal on the first
attempt, the `search` proposal on the second. -/
def envsRetryRecover : Nat → AttemptEnv :=
  fun i => if i = 0 then envEmpty else envSearch

/-- C7 amended witness: the concrete empty first attempt is retried and
the step returns normally after 2 attempts. -/
theorem claim7_parseErrorRetried_witness :
    ((takeAction (envsRetryRecover 0) (startState taskW)
        (JValue.str taskW.description)).2 =
      Except.error (PyErr.valueError "No action selection parsed") ∧
    (∀ (e : AttemptEnv) (resp2 : ChainResponse) (msg : String),
      e.chainResult = Except.ok resp2 →
      e.jsonLoads resp2.content = Except.error msg →
      (takeAction e (startState taskW) (JValue.str taskW.description)).2 =
        Except.error (PyErr.jsonDecodeError msg)) ∧
    ∃ st2, retryTakeAction envsRetryRecover 0 5 (startState taskW)
        (JValue.str taskW.description) =
      (st2, Except.ok (dsSearch.res, false), 2)) :=
  claim7_parseErrorRetried envsRetryRecover (startState taskW)
    (JValue.str taskW.description) respW JValue.null dsSearch rfl rfl rfl rfl rfl
    envSearch_realizes

/-- Witness data for a terminal `result` proposal whose parameters
mapping has no `value` key. -/
structure NoValueSpec where
  resp : ChainResponse
  sel : JValue
  obs : JValue
  rsn : JValue
  act : JValue
  prms : JValue

/-- `e` behaves, on one attempt, as a `result` proposal lacking the
`value` parameter described by `d`: everything parses, the action name
is `result`, and the subscript `parameters["value"]` raises `KeyError`. -/
def realizesResultNoValue (e : AttemptEnv) (d : NoValueSpec) : Prop :=
  e.chainResult = Except.ok d.resp ∧
  e.jsonLoads d.resp.content = Except.ok d.sel ∧
  d.sel.isFalsy = false ∧
  d.sel.getItem "observation" = Except.ok d.obs ∧
  d.sel.getItem "reason" = Except.ok d.rsn ∧
  d.sel.getItem "action" = Except.ok d.act ∧
  d.act.getItem "name" = Except.ok (JValue.str "result") ∧
  d.act.getItem "parameters" = Except.ok d.prms ∧
  d.prms.getItem "value" = Except.error (PyErr.keyError "value")

/-- C10: a terminal `result` proposal whose parameters carry no `value`
key raises the `KeyError` while building the completion message, before
the FINISHED assignment and before any save: the returned state keeps
the task field (status included) and the saves list of the input state
untouched, and the failure is consumed by the retry policy like any
other retryable error — with a successful proposal on the next attempt
the retried step returns normally after 2 attempts. -/
theorem claim10_missingValue (e : AttemptEnv) (d : NoValueSpec) (st : AgentState)
    (cs : JValue) (hd : realizesResultNoValue e d)
    (hrem : st.task.remote = false) (hst : st.task.status = TaskStatus.running)
    (envs : Nat → AttemptEnv) (d2 : StepSpec)
    (henv : envs 0 = e) (hnext : realizesNonTerminal (envs 1) d2) :
    takeAction e st cs =
      ({ st with
          messages := st.messages ++
            [Message.human (humanPrompt cs), Message.ai d.resp.content]
          posted := st.posted ++
            ["👁️ " ++ d.obs.pyStr, "💡 " ++ d.rsn.pyStr,
             "▶️ Taking action \x27result\x27 with parameters: " ++ d.prms.pyStr,
             "⚠️ Error taking action: \x27value\x27 -- retrying..."] },
        Except.error (PyErr.keyError "value")) ∧
    ∃ st2, retryTakeAction envs 0 5 st cs =
      (st2, Except.ok (d2.res, false), 2) := by
  obtain ⟨h1, h2, h3, h4, h5, h6, h7, h8, h9⟩ := hd
  have h0 : takeAction e st cs =
      ({ st with
          messages := st.messages ++
            [Message.human (humanPrompt cs), Message.ai d.resp.content]
          posted := st.posted ++
            ["👁️ " ++ d.obs.pyStr, "💡 " ++ d.rsn.pyStr,
             "▶️ Taking action \x27result\x27 with parameters: " ++ d.prms.pyStr,
             "⚠️ Error taking action: \x27value\x27 -- retrying..."] },
        Except.error (PyErr.keyError "value")) := by
    simp [takeAction, takeActionBody, refreshedState, hrem, hst, h1, h2, h3, h4,
      h5, h6, h7, h8, h9, appendMessage, postMessage, PyErr.toStr,
      JValue.isStrEq, JValue.pyStr, JValue.pyRepr]
  have hnextStep := takeAction_nonTerminal (envs 1) d2
    ({ st with
        messages := st.messages ++
          [Message.human (humanPrompt cs), Message.ai d.resp.content]
        posted := st.posted ++
          ["👁️ " ++ d.obs.pyStr, "💡 " ++ d.rsn.pyStr,
           "▶️ Taking action \x27result\x27 with parameters: " ++ d.prms.pyStr,
           "⚠️ Error taking action: \x27value\x27 -- retrying..."] })
    cs hnext hrem hst
  refine ⟨h0, ⟨(retryTakeAction envs 0 5 st cs).1, ?_⟩⟩
  rw [show (5 : Nat) = Nat.succ 4 from rfl,
    retryTakeAction_first_error envs 0 4 st _ cs _ (by rw [henv, h0]) (by decide),
    show (4 : Nat) = Nat.succ 3 from rfl,
    retryTakeAction_first_ok envs (0 + 1) 3 _ _ cs _ hnextStep]

/-- Concrete `result` action without a `value` parameter. -/
def noValueAct : JValue :=
  JValue.obj [("name", JValue.str "result"), ("parameters", JValue.obj [])]

/-- Concrete parsed selection proposing `result` without `value`. -/
def selNoValue : JValue :=
  JValue.obj [("observation", JValue.str "recipe found"),
              ("reason", JValue.str "task is solved"),
              ("action", noValueAct)]

/-- Witness data of the value-less terminal proposal. -/
def dnNoValue : NoValueSpec :=
  { resp := respW, sel := selNoValue,
    obs := JValue.str "recipe found",
    rsn := JValue.str "task is solved",
    act := noValueAct, prms := JValue.obj [] }

/-- Environment of the value-less terminal attempt. -/
def envNoValue : AttemptEnv :=
  { refreshedStatus := TaskStatus.running,
    chainResult := Except.ok respW,
    jsonLoads := fun _ => Except.ok selNoValue,
    findAction := fun _ => none,
    useAction := fun _ _ => Except.error "unused" }

/-- `envNoValue` realizes the value-less terminal data. -/
theorem envNoValue_realizes : realizesResultNoValue envNoValue dnNoValue :=
  ⟨rfl, rfl, rfl, rfl, rfl, rfl, rfl, rfl, rfl⟩

/-- Environments of the C10 witness: the value-less `result` first, a
successful `search` on the retry. -/
def envsNoValueRetry : Nat → AttemptEnv :=
  fun i => if i = 0 then envNoValue else envSearch

/-- C10 witness: the concrete value-less terminal proposal leaves the
status and saves untouched and is retried successfully. -/
theorem claim10_missingValue_witness :
    takeAction envNoValue (startState taskW) (JValue.str taskW.description) =
      ({ startState taskW with
          messages := (startState taskW).messages ++
            [Message.human (humanPrompt (JValue.str taskW.description)),
             Message.ai dnNoValue.resp.content]
          posted := (startState taskW).posted ++
            ["👁️ " ++ dnNoValue.obs.pyStr, "💡 " ++ dnNoValue.rsn.pyStr,
             "▶️ Taking action \x27result\x27 with parameters: " ++
               dnNoValue.prms.pyStr,
             "⚠️ Error taking action: \x27value\x27 -- retrying..."] },
        Except.error (PyErr.keyError "value")) ∧
    ∃ st2, retryTakeAction envsNoValueRetry 0 5 (startState taskW)
        (JValue.str taskW.description) =
      (st2, Except.ok (dsSearch.res, false), 2) :=
  claim10_missingValue envNoValue dnNoValue (startState taskW)
    (JValue.str taskW.description) envNoValue_realizes rfl rfl
    envsNoValueRetry dsSearch rfl envSearch_realizes

end RoboChef
